import Mathlib

/-!
A shallow embedding of the query/validation/rendering pipeline of the
browser-extension popup (`src/main.js`), together with theorems settling the
specification claims about it.

JavaScript values reaching the embedded functions are either strings (DOM
input values) or numbers (as in the unit tests); they are modelled by `JSVal`.
JavaScript numbers are modelled by `JSNumber` (NaN, the two infinities, or a
finite decimal value); the implicit string-to-number coercion used by `isNaN` and
`<` is modelled by `jsStringToNumber`, following the ECMAScript
`ToNumber(string)` grammar (whitespace-trimmed; empty means 0; signed decimal
with optional fraction and exponent; `Infinity`; unsigned `0x`/`0o`/`0b`
radix literals).
-/

/-- Model of a JavaScript primitive value passed to the exported functions:
a string (DOM `.value`) or a number (as the unit tests pass). -/
inductive JSVal
  | str (s : String)
  | num (n : Int)
deriving DecidableEq

/-- An unnormalized decimal value `mantissa * 10 ^ exp10`. The validator only
observes NaN-ness and the sign, which the mantissa carries, so no
normalization is needed. -/
structure DecValue where
  mantissa : Int
  exp10 : Int
deriving DecidableEq

/-- Model of a JavaScript number: NaN, ±Infinity, or a finite decimal value. -/
inductive JSNumber
  | nan
  | posInf
  | negInf
  | val (q : DecValue)
deriving DecidableEq

/-- JavaScript `StrWhiteSpace` characters (those trimmed by `ToNumber` and
matched by the regex class `\s`). -/
def isJsWhitespace (c : Char) : Bool :=
  c = ' ' || c = '\t' || c = '\n' || c = '\r' ||
  c = '\x0B' || c = '\x0C' || c = '\u00A0' || c = '\u1680' ||
  ('\u2000' ≤ c && c ≤ '\u200A') ||
  c = '\u2028' || c = '\u2029' || c = '\u202F' || c = '\u205F' ||
  c = '\u3000' || c = '\uFEFF'

/-- Strip leading and trailing JavaScript whitespace. -/
def trimJs (l : List Char) : List Char :=
  ((l.dropWhile isJsWhitespace).reverse.dropWhile isJsWhitespace).reverse

/-- Value of a list of decimal digits. -/
def decDigitsVal (l : List Char) : Nat :=
  l.foldl (fun a c => a * 10 + (c.toNat - 48)) 0

/-- Value of one digit in a radix up to 16. -/
def radixDigitVal (c : Char) : Nat :=
  if c.isDigit then c.toNat - 48
  else if 'a' ≤ c && c ≤ 'f' then c.toNat - 87
  else if 'A' ≤ c && c ≤ 'F' then c.toNat - 55
  else 0

/-- Whether `c` is a valid digit for the given radix (2, 8 or 16). -/
def isRadixDigit (radix : Nat) (c : Char) : Bool :=
  (c.isDigit || ('a' ≤ c && c ≤ 'f') || ('A' ≤ c && c ≤ 'F')) &&
    radixDigitVal c < radix

/-- Value of a list of digits in the given radix. -/
def radixVal (radix : Nat) (l : List Char) : Nat :=
  l.foldl (fun a c => a * radix + radixDigitVal c) 0

/-- Parse an optional decimal exponent part (`e`/`E`, optional sign, digits);
the empty list means exponent 0; anything else is a parse failure. -/
def parseExp : List Char → Option Int
  | [] => some 0
  | 'e' :: r => parseExpDigits r
  | 'E' :: r => parseExpDigits r
  | _ => none
where
  parseExpDigits : List Char → Option Int
    | [] => none
    | '+' :: r => if !r.isEmpty && r.all Char.isDigit then some (decDigitsVal r) else none
    | '-' :: r => if !r.isEmpty && r.all Char.isDigit then some (-(decDigitsVal r : Int)) else none
    | l => if l.all Char.isDigit then some (decDigitsVal l) else none

/-- The decimal value of integer digits `ip`, fraction digits `fp` and
exponent `e`. -/
def decRatVal (ip fp : List Char) (e : Int) : DecValue :=
  { mantissa := (decDigitsVal (ip ++ fp) : Int), exp10 := e - (fp.length : Int) }

/-- Parse an unsigned decimal literal (digits, optional `.` fraction,
optional exponent), consuming the whole input. -/
def parseUnsignedDec (l : List Char) : Option DecValue :=
  let ip := l.takeWhile Char.isDigit
  let r1 := l.drop ip.length
  match r1 with
  | '.' :: r2 =>
    let fp := r2.takeWhile Char.isDigit
    let r3 := r2.drop fp.length
    if ip.isEmpty && fp.isEmpty then none
    else (parseExp r3).map (fun e => decRatVal ip fp e)
  | _ =>
    if ip.isEmpty then none
    else (parseExp r1).map (fun e => decRatVal ip [] e)

/-- Parse an unsigned `StrUnsignedDecimalLiteral`: `Infinity` or a decimal. -/
def parseStrUnsigned (l : List Char) : Option JSNumber :=
  if l = "Infinity".data then some .posInf
  else (parseUnsignedDec l).map .val

/-- Negate a JavaScript number. -/
def jsNegNum : JSNumber → JSNumber
  | .nan => .nan
  | .posInf => .negInf
  | .negInf => .posInf
  | .val q => .val { mantissa := -q.mantissa, exp10 := q.exp10 }

/-- Parse an unsigned radix (binary/octal/hex) tail; failure is NaN. -/
def parseRadixTail (radix : Nat) (r : List Char) : JSNumber :=
  if !r.isEmpty && r.all (isRadixDigit radix) then
    .val { mantissa := (radixVal radix r : Int), exp10 := 0 }
  else .nan

/-- Model of ECMAScript `ToNumber` applied to a string: trim whitespace,
empty means `0`, otherwise parse a signed decimal / `Infinity` / unsigned
radix literal; any other input is NaN. -/
def jsStringToNumber (s : String) : JSNumber :=
  match trimJs s.data with
  | [] => .val { mantissa := 0, exp10 := 0 }
  | '+' :: r => (parseStrUnsigned r).getD .nan
  | '-' :: r => ((parseStrUnsigned r).map jsNegNum).getD .nan
  | '0' :: c :: r =>
    if c = 'x' || c = 'X' then parseRadixTail 16 r
    else if c = 'o' || c = 'O' then parseRadixTail 8 r
    else if c = 'b' || c = 'B' then parseRadixTail 2 r
    else (parseStrUnsigned ('0' :: c :: r)).getD .nan
  | l => (parseStrUnsigned l).getD .nan

/-- JavaScript truthiness of a value (`!v` is its negation): the empty string
and the number 0 are falsy. -/
def jsTruthy : JSVal → Bool
  | .str s => !(decide (s = ""))
  | .num n => !(decide (n = 0))

/-- The `ToNumber` coercion on a modelled value. -/
def jsToNumber : JSVal → JSNumber
  | .str s => jsStringToNumber s
  | .num n => .val { mantissa := n, exp10 := 0 }

/-- Model of the global `isNaN(v)`: coerce to number, test for NaN. -/
def jsIsNaN (v : JSVal) : Bool :=
  jsToNumber v = JSNumber.nan

/-- Model of the JavaScript comparison `v < 0` (the other operand being a
number, the value is coerced with `ToNumber`; NaN compares false). -/
def jsLtZero (v : JSVal) : Bool :=
  match jsToNumber v with
  | .nan => false
  | .posInf => false
  | .negInf => true
  | .val q => decide (q.mantissa < 0)

/-- Model of the JavaScript strict equality `v === ""`. -/
def jsStrictEqEmptyStr : JSVal → Bool
  | .str s => decide (s = "")
  | .num _ => false

/-- Model of JavaScript string interpolation `${v}` of a modelled value. -/
def jsToString : JSVal → String
  | .str s => s
  | .num n => toString n

-- Validator (`isValid`, src/main.js lines 60-79)

/-- The validation result object `{valid, errors}` returned by `isValid`. -/
structure Valid where
  valid : Bool
  errors : List String
deriving DecidableEq

/-- Error message pushed for an invalid project. -/
def invalidProject : String :=
  "A valid project name is required and can not be empty example: (sunshine)"

/-- Error message pushed for an invalid status. -/
def invalidStatus : String :=
  "A valid status is required and can not be empty example: (1 for Open or 3 for In process)"

/-- Error message pushed for an invalid number of days. -/
def invalidStatusFor : String :=
  "A valid number of days is required and must be a positive number"

/-- The validator `isValid(project, status, inStatusFor)` from src/main.js: pushes the three
error messages under the code's conditions, in order, and returns
`{valid: false, errors}` when any were pushed, else `{valid: true, errors: []}`. -/
def isValid (project status inStatusFor : JSVal) : Valid :=
  let errors : List String := []
  let errors := if !jsTruthy project then errors ++ [invalidProject] else errors
  let errors := if !jsTruthy status then errors ++ [invalidStatus] else errors
  let errors :=
    if jsStrictEqEmptyStr inStatusFor || jsIsNaN inStatusFor || jsLtZero inStatusFor then
      errors ++ [invalidStatusFor]
    else errors
  if errors.length ≠ 0 then { valid := false, errors := errors }
  else { valid := true, errors := [] }

-- URL builders (`queryURL` src/main.js lines 88-92, `feedURL` lines 146-147)

/-- Builder `queryURL(project, status, inStatusFor, maxResults = 100)` from
src/main.js; the JavaScript default `maxResults = 100` is passed explicitly
here. -/
def queryURL (project status inStatusFor maxResults : JSVal) : String :=
  let baseURL := "https://jira.secondlife.com/rest/api/2/search?jql="
  let queryString :=
    "project=" ++ jsToString project ++ "+and+status=" ++ jsToString status ++
    "+and+status+changed+to+" ++ jsToString status ++ "+before+-" ++
    jsToString inStatusFor ++ "d&fields=id,status,key,assignee,summary&maxresults=" ++
    jsToString maxResults
  baseURL ++ queryString

/-- Builder `feedURL(user)` from src/main.js. -/
def feedURL (user : JSVal) : String :=
  "https://jira.secondlife.com/activity?maxResults=50&streams=user+IS+" ++
    jsToString user ++ "&providers=issues"

-- Payload mapper for the JSON issue list (`buildQueryItems`, src/main.js
-- lines 99-112)

/-- The `fields.status` object of an issue record. -/
structure StatusField where
  description : String
  iconUrl : String
  name : String
deriving DecidableEq

/-- The `fields` object of an issue record. -/
structure IssueFields where
  status : StatusField
  summary : String
deriving DecidableEq

/-- One issue record from the search response (`key` is interpolated, so it
may be a number, as in the unit test, or a string). -/
structure Issue where
  key : JSVal
  fields : IssueFields
deriving DecidableEq

/-- The row template applied to one issue inside `buildQueryItems`, with the
exact template-literal whitespace of src/main.js lines 101-110. -/
def queryItemRow (i : Issue) : String :=
  "<tr>\n              <td>" ++ jsToString i.key ++ "</td>\n              <td>\n                <span title=\"" ++ i.fields.status.description ++ "\">\n                  <img src=\"" ++ i.fields.status.iconUrl ++ "\" />\n                  <span>" ++ i.fields.status.name ++ "</span>\n                </span>\n              </td>\n              <td>" ++ i.fields.summary ++ "</td>\n            </tr>"

/-- Mapper `buildQueryItems(items)` from src/main.js: one row fragment per
issue, by `Array.map`. -/
def buildQueryItems (items : List Issue) : List String :=
  items.map queryItemRow

/-- Removal of every whitespace character, as the unit tests do with
`replace(/(\s)/gm, "")`. -/
def stripWs (s : String) : String :=
  String.mk (s.data.filter (fun c => !isJsWhitespace c))

/-- The single issue record used by the unit tests and §8 of the spec. -/
def testIssue : Issue :=
  { key := .num 1,
    fields := { status := { description := "test", iconUrl := "testURL", name := "testName" },
                summary := "testSummary" } }

-- Table renderer (`resultsTable`, src/main.js lines 193-212)

/-- Renderer `resultsTable(items, queryName, queryType = null)` from
src/main.js, with the exact template-literal whitespace; `queryType` is an
`Option String` so that the JavaScript default `null` (used by the activity
flow) is `none`. -/
def resultsTable (items : List String) (queryName : String) (queryType : Option String) : String :=
  "<h5>" ++ queryName ++ " Results</h5>\n          <table width=\"100%\">\n            <thead>\n            " ++
  (if queryType = some "query" then
    "<tr><th>Issue</th><th>Status</th><th>Summary</th></tr>"
  else "<tr><th>Date</th><th>Activity</th></tr>") ++
  "\n\n            </thead>\n            <tbody>\n              " ++
  (if items.length ≠ 0 then String.join items
   else "<tr><td colspan=\"3\">There are no " ++ queryName ++ " results</td></tr>") ++
  "\n            </tbody>\n          </table>"

-- Named parts of the rendered table, used to state the renderer claims.

/-- The heading line `<heading> Results` of a rendered table. -/
def tableHeading (queryName : String) : String :=
  "<h5>" ++ queryName ++ " Results</h5>"

/-- Header row used for `queryType === "query"`. -/
def queryHeaderRow : String :=
  "<tr><th>Issue</th><th>Status</th><th>Summary</th></tr>"

/-- Header row used for every other `queryType`. -/
def activityHeaderRow : String :=
  "<tr><th>Date</th><th>Activity</th></tr>"

/-- The header row selected by `queryType`. -/
def headerRowFor (queryType : Option String) : String :=
  if queryType = some "query" then queryHeaderRow else activityHeaderRow

/-- The empty-state row announcing that there are no results. -/
def emptyStateRow (queryName : String) : String :=
  "<tr><td colspan=\"3\">There are no " ++ queryName ++ " results</td></tr>"

/-- The body placed inside `<tbody>`: the concatenated rows, or the
empty-state row when there are none. -/
def tableBody (items : List String) (queryName : String) : String :=
  if items = [] then emptyStateRow queryName else String.join items

-- Activity feed mapper (`buildFeedItems`, src/main.js lines 154-170) and
-- the text-extraction utility (`domify`, lines 236-242)

/-- A node of a parsed XML/HTML document: a text node or an element with a
tag and children. A parsed document is modelled by its root node, and
`document.getElementsByTagName` searches from (and including) that root. -/
inductive XmlNode
  | text (s : String)
  | elem (tag : String) (children : List XmlNode)

/-- The children of a node (a text node has none). -/
def childrenOf : XmlNode → List XmlNode
  | .text _ => []
  | .elem _ cs => cs

mutual
/-- All elements with the given tag in the subtree rooted at `n`, including
`n` itself, in document (preorder) order: the model of
`getElementsByTagName` on a document. -/
def elementsByTag (tag : String) : XmlNode → List XmlNode
  | .text _ => []
  | .elem t cs => (if t = tag then [XmlNode.elem t cs] else []) ++ elementsByTagList tag cs

/-- All elements with the given tag inside a list of subtrees, in document
order. Applied to a node's children this models `getElementsByTagName` on an
element (which searches descendants only). -/
def elementsByTagList (tag : String) : List XmlNode → List XmlNode
  | [] => []
  | c :: cs => elementsByTag tag c ++ elementsByTagList tag cs
end

mutual
/-- Serialize a node back to markup. -/
def serializeNode : XmlNode → String
  | .text s => s
  | .elem t cs => "<" ++ t ++ ">" ++ serializeNodes cs ++ "</" ++ t ++ ">"

/-- Serialize a list of nodes back to markup. -/
def serializeNodes : List XmlNode → String
  | [] => ""
  | c :: cs => serializeNode c ++ serializeNodes cs
end

/-- The `innerHTML` of an element: the serialization of its children. -/
def innerHTML (n : XmlNode) : String :=
  serializeNodes (childrenOf n)

/-- Drop markup tags from a character stream: outside a tag (`inTag` false)
characters are kept and `<` enters a tag; inside a tag characters are dropped
and `>` leaves it. -/
def stripTagsAux : Bool → List Char → List Char
  | _, [] => []
  | true, c :: cs => if c = '>' then stripTagsAux false cs else stripTagsAux true cs
  | false, c :: cs => if c = '<' then stripTagsAux true cs else c :: stripTagsAux false cs

/-- Utility `domify(str)` from src/main.js: parse the string as HTML body
content and return its text content. Modelled as discarding every `<...>`
tag and keeping the character data. -/
def domify (str : String) : String :=
  String.mk (stripTagsAux false str.data)

/-- The failure modes of `buildFeedItems`. In the JavaScript both are thrown
`TypeError`s (indexing `[0]` into an empty `getElementsByTagName`
collection); the specification names the missing-feed-root one a
`StructuralError`. -/
inductive FeedError
  | structuralError
  | entryFieldMissing
deriving DecidableEq

/-- One iteration of the loop body of `buildFeedItems`: extract the entry's
first `title` and first `updated` descendants (failing, as the code does,
when either is absent) and build the row, with the exact template-literal
whitespace of src/main.js lines 163-166. `toLocale` is the injected model of
`new Date(...).toLocaleString()`. -/
def feedItemRow (toLocale : String → String) (e : XmlNode) : Except FeedError String :=
  match elementsByTagList "title" (childrenOf e) with
  | [] => .error .entryFieldMissing
  | titleEl :: _ =>
    match elementsByTagList "updated" (childrenOf e) with
    | [] => .error .entryFieldMissing
    | updatedEl :: _ =>
      .ok ("<tr>\n          <td>" ++ toLocale (innerHTML updatedEl) ++
        "</td>\n          <td>" ++ domify (innerHTML titleEl) ++ "</td>\n      </tr>")

/-- Mapper `buildFeedItems(result)` from src/main.js: take the first `feed`
element of the document, iterate the `entry` elements below it in document
order, one row per entry. -/
def buildFeedItems (toLocale : String → String) (result : XmlNode) :
    Except FeedError (List String) :=
  match elementsByTag "feed" result with
  | [] => .error .structuralError
  | f :: _ => (elementsByTagList "entry" (childrenOf f)).mapM (feedItemRow toLocale)

/-- Whether an entry has the `title` and `updated` descendants the loop body
reads. -/
def hasEntryFields (e : XmlNode) : Bool :=
  !(elementsByTagList "title" (childrenOf e)).isEmpty &&
  !(elementsByTagList "updated" (childrenOf e)).isEmpty

/-- The row built for an entry that has its fields (total counterpart of
`feedItemRow`). -/
def feedRowOf (toLocale : String → String) (e : XmlNode) : String :=
  "<tr>\n          <td>" ++
    toLocale (innerHTML (((elementsByTagList "updated" (childrenOf e)).head?).getD (.text ""))) ++
    "</td>\n          <td>" ++
    domify (innerHTML (((elementsByTagList "title" (childrenOf e)).head?).getD (.text ""))) ++
    "</td>\n      </tr>"

/-- A document whose feed root holds one entry with no title or updated
child. -/
def feedDocWithBareEntry : XmlNode :=
  .elem "feed" [.elem "entry" []]

/-- A well-formed one-entry feed document (the title carries inline markup,
as the Atom feed's titles do). -/
def testFeedDoc : XmlNode :=
  .elem "feed"
    [.elem "entry"
      [.elem "title" [.text "<b>hi</b>"],
       .elem "updated" [.text "2011-01-01"]]]

-- Request orchestrator error path (`make_request` src/main.js lines 278-292,
-- `handleError` lines 311-321, `updateStatus` lines 20-23)

/-- The JSON error body the code reads `errorMessages` from. -/
structure ErrorBody where
  errorMessages : List String
deriving DecidableEq

/-- Outcome of the single `fetch` call: an OK response carrying the parsed
payload, a non-OK response with its HTTP status and parsed JSON error body,
or a rejection (the request could not complete). -/
inductive FetchOutcome (α : Type)
  | ok (payload : α)
  | httpError (status : Nat) (body : ErrorBody)
  | networkFailure

/-- The value `make_request` resolves with: the parsed payload on success,
the literal `false` after a handled HTTP error, or `undefined` after a
caught failure. -/
inductive ReqResult (α : Type)
  | payload (a : α)
  | boolFalse
  | undef
deriving DecidableEq

/-- One write to the status line (`updateStatus(message, error)`). -/
structure StatusWrite where
  message : String
  isError : Bool
deriving DecidableEq

/-- The hard-coded 401 message of `handleError`. -/
def loggedInMessage : String :=
  "You must be logged in to JIRA to see this project."

/-- Handler `handleError(json, status)` from src/main.js: the fixed message
for status 401, otherwise the joined `errorMessages`; always written as an
error. `none` models the `undefined` status of the catch path. -/
def handleError (json : ErrorBody) (status : Option Nat) : StatusWrite :=
  { message :=
      if status = some 401 then loggedInMessage
      else String.intercalate "</br>" json.errorMessages,
    isError := true }

/-- The text `updateStatus` puts into the status line for a write: error
writes are prefixed with `ERROR. `. -/
def updateStatusText (w : StatusWrite) : String :=
  if w.isError then "ERROR. " ++ w.message else w.message

/-- Orchestrator `make_request(url, responseType)` from src/main.js as a
function of the fetch outcome: returns the resolved value together with the
status-line writes it performs. One fetch outcome is consumed per call — the
code never retries. -/
def make_request {α : Type} (outcome : FetchOutcome α) : ReqResult α × List StatusWrite :=
  match outcome with
  | .ok payload => (.payload payload, [])
  | .httpError status body => (.boolFalse, [handleError body (some status)])
  | .networkFailure => (.undef, [handleError { errorMessages := ["Network Error"] } none])

-- Helper lemmas

/-- A list of JavaScript-whitespace characters trims to the empty list. -/
theorem trimJs_eq_nil_of_all_ws :
    ∀ l : List Char, l.all isJsWhitespace = true → trimJs l = []
  | [], _ => rfl
  | c :: cs, h => by
    have h1 : (c :: cs).dropWhile isJsWhitespace = [] := by
      have hall : ∀ x ∈ c :: cs, isJsWhitespace x = true := List.all_eq_true.mp h
      induction cs with
      | nil => simp [List.dropWhile, hall c (by simp)]
      | cons d ds ih =>
        have hc := hall c (by simp)
        have hd := hall d (by simp)
        simp only [List.dropWhile, hc, hd, if_pos]
        have : ∀ x ∈ c :: ds, isJsWhitespace x = true := by
          intro x hx
          rcases List.mem_cons.mp hx with h | h
          · exact h ▸ hc
          · exact hall x (by simp [h])
        have := ih (List.all_eq_true.mpr this) this
        simpa [List.dropWhile, hc] using this
    unfold trimJs
    rw [h1]
    rfl

-- Claim theorems: validator

/-- C1: `isValid` adds an error exactly when project is falsy, when status is
falsy (numeric zero counts as empty), and when `inStatusFor` is the empty
string, not numeric, or negative, in the fixed order project, status,
daysInStatus; `isValid("", "", "")` is invalid with exactly those three
errors and `isValid("Sunshine", 1, 1)` is valid with none. -/
theorem isValid_error_conditions :
    (∀ project status inStatusFor : JSVal,
      (isValid project status inStatusFor).errors =
        (if jsTruthy project then [] else [invalidProject]) ++
        (if jsTruthy status then [] else [invalidStatus]) ++
        (if jsStrictEqEmptyStr inStatusFor || jsIsNaN inStatusFor || jsLtZero inStatusFor then
          [invalidStatusFor] else [])) ∧
    isValid (.str "") (.str "") (.str "") =
      { valid := false, errors := [invalidProject, invalidStatus, invalidStatusFor] } ∧
    isValid (.str "Sunshine") (.num 1) (.num 1) = { valid := true, errors := [] } := by
  refine ⟨fun project status inStatusFor => ?_, by decide, by decide⟩
  cases hp : jsTruthy project <;> cases hs : jsTruthy status <;>
    cases hd : (jsStrictEqEmptyStr inStatusFor || jsIsNaN inStatusFor || jsLtZero inStatusFor) <;>
      simp [isValid, hp, hs, hd]

/-- C2: for every input triple, `isValid` returns a validation result
satisfying the invariant `valid == (errors is empty)`; being a total Lean
function of the modelled inputs, it never throws. -/
theorem isValid_valid_iff_no_errors :
    ∀ project status inStatusFor : JSVal,
      (isValid project status inStatusFor).valid =
        (isValid project status inStatusFor).errors.isEmpty := by
  intro project status inStatusFor
  cases hp : jsTruthy project <;> cases hs : jsTruthy status <;>
    cases hd : (jsStrictEqEmptyStr inStatusFor || jsIsNaN inStatusFor || jsLtZero inStatusFor) <;>
      simp [isValid, hp, hs, hd]

/-- C10: with a truthy project and status, a nonempty whitespace-only
`daysInStatus` string is accepted as valid: it is not strictly equal to the
empty string, it coerces to the number 0 (so `isNaN` is false), and 0 is not
negative. -/
theorem isValid_accepts_whitespace_days :
    ∀ (project status : JSVal) (ws : String),
      jsTruthy project = true → jsTruthy status = true →
      ws ≠ "" → ws.data.all isJsWhitespace = true →
      isValid project status (.str ws) = { valid := true, errors := [] } ∧
      jsStringToNumber ws = .val { mantissa := 0, exp10 := 0 } := by
  intro project status ws hp hs hne hws
  have htrim : trimJs ws.data = [] := trimJs_eq_nil_of_all_ws ws.data hws
  have hnum : jsStringToNumber ws = .val { mantissa := 0, exp10 := 0 } := by
    unfold jsStringToNumber
    rw [htrim]
  refine ⟨?_, hnum⟩
  have hemp : jsStrictEqEmptyStr (.str ws) = false := by
    simp [jsStrictEqEmptyStr, hne]
  have hnan : jsIsNaN (.str ws) = false := by
    simp [jsIsNaN, jsToNumber, hnum]
  have hlt : jsLtZero (.str ws) = false := by
    simp [jsLtZero, jsToNumber, hnum]
  simp [isValid, hp, hs, hemp, hnan, hlt]

/-- Witness for `isValid_accepts_whitespace_days` at project `"Sunshine"`,
status `1` and days `" "`. -/
theorem isValid_accepts_whitespace_days_witness :
    isValid (.str "Sunshine") (.num 1) (.str " ") = { valid := true, errors := [] } ∧
    jsStringToNumber " " = .val { mantissa := 0, exp10 := 0 } :=
  isValid_accepts_whitespace_days (.str "Sunshine") (.num 1) " "
    (by decide) (by decide) (by decide) (by decide)

-- Claim theorems: URL builders

/-- C3: the URL builders produce the exact strings the specification fixes
for `queryURL("Sunshine", 1, 1)` (with `maxResults` at its default 100) and
`feedURL("testuser")`. -/
theorem urls_match_spec_strings :
    queryURL (.str "Sunshine") (.num 1) (.num 1) (.num 100) =
      "https://jira.secondlife.com/rest/api/2/search?jql=project=Sunshine+and+status=1+and+status+changed+to+1+before+-1d&fields=id,status,key,assignee,summary&maxresults=100" ∧
    feedURL (.str "testuser") =
      "https://jira.secondlife.com/activity?maxResults=50&streams=user+IS+testuser&providers=issues" :=
  ⟨rfl, rfl⟩

-- Claim theorems: issue mapper

set_option maxRecDepth 8192 in
/-- C4: `buildQueryItems` returns one row fragment per issue, preserving
input order; the empty input yields the empty sequence; and on the test issue
the produced row agrees, modulo whitespace stripping, with the row the
specification displays (shown there with layout spaces, hence both sides are
stripped), which stripped is exactly the string the repository unit test
expects. -/
theorem buildQueryItems_rows :
    (∀ items : List Issue,
      (buildQueryItems items).length = items.length ∧
      ∀ j : Nat, (buildQueryItems items)[j]? = (items[j]?).map queryItemRow) ∧
    buildQueryItems [] = [] ∧
    buildQueryItems [testIssue] = [queryItemRow testIssue] ∧
    stripWs (queryItemRow testIssue) =
      stripWs "<tr><td>1</td><td><span title=\"test\"><img src=\"testURL\"/><span>testName</span></span></td><td>testSummary</td></tr>" ∧
    stripWs (queryItemRow testIssue) =
      "<tr><td>1</td><td><spantitle=\"test\"><imgsrc=\"testURL\"/><span>testName</span></span></td><td>testSummary</td></tr>" := by
  refine ⟨fun items => ⟨?_, fun j => ?_⟩, rfl, rfl, ?_, ?_⟩
  · simp [buildQueryItems]
  · simp [buildQueryItems]
  · rfl
  · rfl

-- Claim theorems: table renderer

set_option maxRecDepth 8192 in
/-- C5: `resultsTable` emits the heading line `<heading> Results`, a header
row of {Issue, Status, Summary} when the kind is "query" and {Date, Activity}
otherwise, and a body that concatenates the rows in order when they are
nonempty and is the single empty-state row naming the heading when they are
empty; instantiated on the §8 test table and on the empty "X" table. -/
theorem resultsTable_renders :
    (∀ (items : List String) (queryName : String) (queryType : Option String),
      resultsTable items queryName queryType =
        tableHeading queryName ++
        "\n          <table width=\"100%\">\n            <thead>\n            " ++
        headerRowFor queryType ++
        "\n\n            </thead>\n            <tbody>\n              " ++
        tableBody items queryName ++
        "\n            </tbody>\n          </table>") ∧
    headerRowFor (some "query") = queryHeaderRow ∧
    headerRowFor none = activityHeaderRow ∧
    headerRowFor (some "activity") = activityHeaderRow ∧
    (∀ queryName : String, tableBody [] queryName = emptyStateRow queryName) ∧
    (∀ (r : String) (rs : List String) (queryName : String),
      tableBody (r :: rs) queryName = String.join (r :: rs)) ∧
    stripWs (resultsTable (buildQueryItems [testIssue]) "test query" (some "query")) =
      "<h5>testqueryResults</h5><tablewidth=\"100%\"><thead><tr><th>Issue</th><th>Status</th><th>Summary</th></tr></thead><tbody><tr><td>1</td><td><spantitle=\"test\"><imgsrc=\"testURL\"/><span>testName</span></span></td><td>testSummary</td></tr></tbody></table>" ∧
    stripWs (resultsTable [] "X" (some "query")) =
      "<h5>XResults</h5><tablewidth=\"100%\"><thead><tr><th>Issue</th><th>Status</th><th>Summary</th></tr></thead><tbody><tr><tdcolspan=\"3\">TherearenoXresults</td></tr></tbody></table>" := by
  refine ⟨?_, rfl, rfl, rfl, fun queryName => rfl, fun r rs queryName => rfl, ?_, ?_⟩
  · intro items queryName queryType
    by_cases h : queryType = some "query" <;> cases items <;>
      simp [resultsTable, tableHeading, headerRowFor, queryHeaderRow, activityHeaderRow,
        tableBody, emptyStateRow, h, String.append_assoc]
  · rfl
  · rfl

set_option maxRecDepth 8192 in
/-- C9: with no rows, `resultsTable` always emits its empty-state row with
the fixed attribute `colspan="3"`, whatever the kind; in particular with the
activity kind (`null`), whose header row has only the two columns Date and
Activity, the full output still carries the `colspan="3"` empty-state row. -/
theorem resultsTable_empty_colspan_three :
    (∀ (queryName : String) (queryType : Option String), ∃ pre post,
      resultsTable [] queryName queryType =
        pre ++ ("<tr><td colspan=\"3\">There are no " ++ queryName ++ " results</td></tr>") ++ post) ∧
    (∀ queryName : String,
      resultsTable [] queryName none =
        "<h5>" ++ queryName ++ " Results</h5>\n          <table width=\"100%\">\n            <thead>\n            <tr><th>Date</th><th>Activity</th></tr>\n\n            </thead>\n            <tbody>\n              <tr><td colspan=\"3\">There are no " ++ queryName ++ " results</td></tr>\n            </tbody>\n          </table>") := by
  constructor
  · intro queryName queryType
    refine ⟨"<h5>" ++ queryName ++
      " Results</h5>\n          <table width=\"100%\">\n            <thead>\n            " ++
      headerRowFor queryType ++ "\n\n            </thead>\n            <tbody>\n              ",
      "\n            </tbody>\n          </table>", ?_⟩
    by_cases h : queryType = some "query" <;>
      simp [resultsTable, headerRowFor, queryHeaderRow, activityHeaderRow, h, String.append_assoc]
  · intro queryName
    refine String.ext ?_
    simp [resultsTable, String.data_append, List.append_assoc]

/-- C8: the URL builders and the table renderer are pure and deterministic:
in this embedding they are total functions of their modelled inputs alone (no
ambient state appears in their definitions), so two calls with identical
inputs are the same term and produce byte-identical strings. -/
theorem builders_and_renderer_deterministic :
    (∀ project status inStatusFor maxResults : JSVal,
      queryURL project status inStatusFor maxResults =
        queryURL project status inStatusFor maxResults) ∧
    (∀ user : JSVal, feedURL user = feedURL user) ∧
    (∀ (items : List String) (queryName : String) (queryType : Option String),
      resultsTable items queryName queryType = resultsTable items queryName queryType) :=
  ⟨fun _ _ _ _ => rfl, fun _ => rfl, fun _ _ _ => rfl⟩

-- Claim theorems: activity feed mapper

/-- An entry with its fields present yields exactly its row. -/
theorem feedItemRow_eq_of_hasEntryFields (toLocale : String → String) (e : XmlNode)
    (h : hasEntryFields e = true) :
    feedItemRow toLocale e = .ok (feedRowOf toLocale e) := by
  unfold hasEntryFields at h
  obtain ⟨h1, h2⟩ := Bool.and_eq_true_iff.mp h
  cases ht : elementsByTagList "title" (childrenOf e) with
  | nil => rw [ht] at h1; simp at h1
  | cons t ts =>
    cases hu : elementsByTagList "updated" (childrenOf e) with
    | nil => rw [hu] at h2; simp at h2
    | cons u us =>
      simp [feedItemRow, feedRowOf, ht, hu]

/-- Entries all having their fields map to exactly their rows, in order. -/
theorem mapM_feedItemRow_eq_map (toLocale : String → String) :
    ∀ es : List XmlNode, es.all hasEntryFields = true →
      es.mapM (feedItemRow toLocale) = .ok (es.map (feedRowOf toLocale))
  | [], _ => rfl
  | e :: es, h => by
    rw [List.all_cons, Bool.and_eq_true] at h
    obtain ⟨h1, h2⟩ := h
    rw [List.mapM_cons, feedItemRow_eq_of_hasEntryFields toLocale e h1,
      mapM_feedItemRow_eq_map toLocale es h2]
    rfl

/-- C6 counterexample: a document whose feed root holds one bare entry (no
title or updated child). The feed root exists and has exactly one entry
child, yet `buildFeedItems` does not return a row per entry — it fails,
because the loop body indexes the entry's absent `title` collection. -/
theorem buildFeedItems_fails_on_bare_entry :
    (elementsByTag "feed" feedDocWithBareEntry).length = 1 ∧
    (elementsByTagList "entry" (childrenOf feedDocWithBareEntry)).length = 1 ∧
    buildFeedItems (fun s => s) feedDocWithBareEntry = .error .entryFieldMissing :=
  ⟨rfl, rfl, rfl⟩

/-- C6 (amended): with no `feed` element in the document, `buildFeedItems`
fails with the structural error; with a feed element whose entry elements
each contain a `title` and an `updated` element, it returns one row per
entry element below the first feed element, in document order, each row
holding the reformatted `updated` timestamp and the markup-stripped title. -/
theorem buildFeedItems_spec (toLocale : String → String) (doc : XmlNode) :
    (elementsByTag "feed" doc = [] →
      buildFeedItems toLocale doc = .error .structuralError) ∧
    (∀ (f : XmlNode) (rest : List XmlNode),
      elementsByTag "feed" doc = f :: rest →
      (elementsByTagList "entry" (childrenOf f)).all hasEntryFields = true →
      buildFeedItems toLocale doc =
        .ok ((elementsByTagList "entry" (childrenOf f)).map (feedRowOf toLocale))) := by
  constructor
  · intro h
    unfold buildFeedItems
    rw [h]
  · intro f rest hfeed hfields
    unfold buildFeedItems
    rw [hfeed]
    exact mapM_feedItemRow_eq_map toLocale _ hfields

/-- Witness for `buildFeedItems_spec` on the one-entry test document: the
timestamp is reformatted by the injected formatter and the title markup
`<b>hi</b>` is stripped to `hi`. -/
theorem buildFeedItems_spec_witness :
    buildFeedItems (fun _ => "1/1/2011, 12:00:00 AM") testFeedDoc =
      .ok ["<tr>\n          <td>1/1/2011, 12:00:00 AM</td>\n          <td>hi</td>\n      </tr>"] := by
  have h := (buildFeedItems_spec (fun _ => "1/1/2011, 12:00:00 AM") testFeedDoc).2
    (.elem "feed"
      [.elem "entry"
        [.elem "title" [.text "<b>hi</b>"],
         .elem "updated" [.text "2011-01-01"]]])
    [] rfl rfl
  rw [h]
  rfl

-- Claim theorems: request orchestrator error path

/-- C7: on a non-OK HTTP response `make_request` performs exactly one
status-line write, as an error: the fixed logged-in message when the status
is 401, otherwise the `errorMessages` of the parsed error body joined with
`</br>`; it never retries (a single write, no further request). On a request
that could not complete it writes the generic "Network Error" message. -/
theorem make_request_error_handling :
    ∀ (α : Type) (status : Nat) (body : ErrorBody),
      (status = 401 →
        make_request (α := α) (.httpError status body) =
          (.boolFalse, [{ message := loggedInMessage, isError := true }])) ∧
      (status ≠ 401 →
        make_request (α := α) (.httpError status body) =
          (.boolFalse,
           [{ message := String.intercalate "</br>" body.errorMessages, isError := true }])) ∧
      (make_request (α := α) (.httpError status body)).2.length = 1 ∧
      make_request (α := α) .networkFailure =
        (.undef, [{ message := "Network Error", isError := true }]) ∧
      updateStatusText { message := "Network Error", isError := true } =
        "ERROR. Network Error" := by
  intro α status body
  refine ⟨fun h => ?_, fun h => ?_, rfl, rfl, rfl⟩
  · subst h
    rfl
  · simp [make_request, handleError, h]

/-- Witness for `make_request_error_handling`: a 401 response yields the
logged-in message and a 500 response yields the joined error messages. -/
theorem make_request_error_handling_witness :
    make_request (α := Unit) (.httpError 401 { errorMessages := ["x"] }) =
      (.boolFalse, [{ message := loggedInMessage, isError := true }]) ∧
    make_request (α := Unit) (.httpError 500 { errorMessages := ["a", "b"] }) =
      (.boolFalse, [{ message := "a</br>b", isError := true }]) :=
  ⟨(make_request_error_handling Unit 401 { errorMessages := ["x"] }).1 rfl,
   by
    have h := (make_request_error_handling Unit 500 { errorMessages := ["a", "b"] }).2.1
      (by decide)
    rw [h]
    rfl⟩
